import Mathlib

set_option maxRecDepth 100000

/-!
Shallow embedding of the Mercury editor core (src/src/editor.rs).

Coordinates are `usize` in the source; we model them as `Nat`.  All the
source's arithmetic is `saturating_sub` / `saturating_add`: `Nat`
subtraction is exactly `saturating_sub`, and on unbounded naturals
`saturating_add` coincides with `+` (the program never reaches the
`usize` ceiling on realistic inputs, and no claim depends on it).

The files `document.rs`, `row.rs` and `terminal.rs` are not part of the
sources provided; their narrow contracts are modelled from the spec (§6,
§4.3) and marked as such below.  Everything else is translated directly
from `editor.rs`.
-/

/-- Modelled from the spec (§2, §6): `row.rs` is not under `src/`.  A `Row`
is a single line of text; its essential attribute is its length. -/
abbrev Row := String

/-- Modelled from the spec (§4.3, `Row.render(start, end)`): `row.rs` is not
under `src/`.  Returns the substring of the row between columns `start` and
`stop`, clipped to the row's actual length; out-of-range indices yield an
empty result rather than an error. -/
def render (row : Row) (start stop : Nat) : String :=
  ((row.data.drop start).take (stop - start)).asString

/-- Modelled from the spec (§3, §6): `document.rs` is not under `src/`.
A `Document` is an ordered sequence of `Row`s. -/
structure Document where
  rows : List Row
deriving DecidableEq

/-- Modelled from the spec (§6): `row(index) -> Optional<Row>`. -/
def Document.row (d : Document) (index : Nat) : Option Row :=
  d.rows.get? index

/-- Modelled from the spec (§6): `len() -> unsigned`, the row count. -/
def Document.len (d : Document) : Nat :=
  d.rows.length

/-- Modelled from the spec (§6): `is_empty() -> bool`. -/
def Document.isEmpty (d : Document) : Bool :=
  d.rows.isEmpty

/-- `Position` from editor.rs: `{x: usize (column), y: usize (row index)}`. -/
structure Position where
  x : Nat
  y : Nat
deriving DecidableEq

/-- The key events relevant to `editor.rs` (termion's `Key` restricted to
the constructors the editor matches on, plus `other` for the rest). -/
inductive Key where
  | up
  | down
  | left
  | right
  | char (c : Char)
  | ctrl (c : Char)
  | pageUp
  | pageDown
  | home
  | endKey
  | other
deriving DecidableEq, BEq

/-- `MOVE_KEYS` from editor.rs. -/
def MOVE_KEYS : List Key :=
  [Key.left, Key.up, Key.right, Key.down,
   Key.char 'h', Key.char 'j', Key.char 'k', Key.char 'l']

/-- `SHORTCUT_MOVE_KEYS` from editor.rs. -/
def SHORTCUT_MOVE_KEYS : List Key :=
  [Key.pageDown, Key.pageUp, Key.home, Key.endKey]

/-- `Editor::is_move_key` from editor.rs. -/
def is_move_key (key : Key) : Bool :=
  MOVE_KEYS.contains key

/-- `Editor::is_move_shortcut` from editor.rs. -/
def is_move_shortcut (key : Key) : Bool :=
  SHORTCUT_MOVE_KEYS.contains key

/-- The row-width computation used twice inside `Editor::move_cursor`:
`if let Some(row) = self.document.row(y) { row.len() } else { 0 }`. -/
def row_len (doc : Document) (y : Nat) : Nat :=
  match doc.row y with
  | some row => row.length
  | none => 0

/-- Whether a key is handled by one of the explicit arms of the `match` in
`Editor::move_cursor` (everything else falls to the `_ => ()` arm). -/
def moveCursorHandles (key : Key) : Bool :=
  match key with
  | Key.up | Key.down | Key.left | Key.right
  | Key.pageUp | Key.pageDown | Key.home | Key.endKey => true
  | Key.char c => c = 'k' || c = 'j' || c = 'h' || c = 'l'
  | _ => false

/-- `Editor::move_cursor` from editor.rs.  The source reads
`let size = self.terminal.size();` and never uses it; `size` is kept as a
(unused) parameter to state terminal-independence.  The Rust or-patterns
`Key::Up | Key::Char('k')` etc. are rendered as the arrow arms plus a
`Key.char c` arm testing `c` against the four letters. -/
def move_cursor (size : Nat × Nat) (doc : Document) (key : Key) (p : Position) : Position :=
  let y := p.y
  let x := p.x
  let height := doc.len
  let width := row_len doc y
  let xy : Nat × Nat :=
    match key with
    | Key.up => (x, y - 1)
    | Key.down => (x, if y < height then y + 1 else y)
    | Key.left => (x - 1, y)
    | Key.right => (if x < width then x + 1 else x, y)
    | Key.char c =>
      if c = 'k' then (x, y - 1)
      else if c = 'j' then (x, if y < height then y + 1 else y)
      else if c = 'h' then (x - 1, y)
      else if c = 'l' then (if x < width then x + 1 else x, y)
      else (x, y)
    | Key.pageDown => (x, height)
    | Key.pageUp => (x, 0)
    | Key.home => (0, y)
    | Key.endKey => (width, y)
    | _ => (x, y)
  let width2 := row_len doc xy.2
  ⟨if xy.1 > width2 then width2 else xy.1, xy.2⟩

/-- `Editor::scroll` from editor.rs, as a function of the cursor, the old
offset and the terminal size, returning the new offset. -/
def scroll (cursor offset : Position) (width height : Nat) : Position :=
  let oy :=
    if cursor.y < offset.y then cursor.y
    else if cursor.y ≥ offset.y + height then cursor.y - height + 1
    else offset.y
  let ox :=
    if cursor.x < offset.x then cursor.x
    else if cursor.x ≥ offset.x + width then cursor.x - width + 1
    else offset.x
  ⟨ox, oy⟩

/-- What a body row of one frame shows: a windowed document row, the
welcome banner (`Editor::welcome_msg`), or the blank-line placeholder
`"|"`. -/
inductive RowOutput where
  | text (s : String)
  | welcome
  | blank
deriving DecidableEq, BEq

/-- `Editor::draw_rows` from editor.rs, as the list of body-row outputs of
one frame: for each `terminal_row` in `0..height-1`, the windowed document
row at `terminal_row + offset.y` if it exists, else the welcome banner when
the document is empty and `terminal_row == height / 3`, else the blank
placeholder.  (`Editor::draw_row` windows the row to
`[offset.x, offset.x + width)` via `render`.) -/
def draw_rows (doc : Document) (offset : Position) (width height : Nat) : List RowOutput :=
  (List.range (height - 1)).map fun terminal_row =>
    match doc.row (terminal_row + offset.y) with
    | some row => RowOutput.text (render row offset.x (offset.x + width))
    | none =>
      if doc.isEmpty ∧ terminal_row = height / 3 then RowOutput.welcome
      else RowOutput.blank

/-- The editor state carried across the `Editor::run` loop. -/
structure Editor where
  want_quit : Bool
  cursor_position : Position
  offset : Position
  document : Document
deriving DecidableEq

/-- `Editor::process_keypress` from editor.rs: set `want_quit` on
`Ctrl('p')`, move the cursor on a movement key or shortcut, then always
scroll. -/
def process_keypress (width height : Nat) (e : Editor) (pressed_key : Key) : Editor :=
  let e1 :=
    if pressed_key = Key.ctrl 'p' then { e with want_quit := true }
    else if is_move_key pressed_key then
      { e with cursor_position := move_cursor (width, height) e.document pressed_key e.cursor_position }
    else if is_move_shortcut pressed_key then
      { e with cursor_position := move_cursor (width, height) e.document pressed_key e.cursor_position }
    else e
  { e1 with offset := scroll e1.cursor_position e1.offset width height }

/-- One rendered frame of `Editor::refresh_screen`: either the farewell
frame (whole screen cleared, farewell line printed) when `want_quit` is
set, or a normal frame with its body rows and the screen-relative cursor
position `(x - offset.x, y - offset.y)` (saturating subtraction). -/
inductive Frame where
  | farewell
  | normal (rows : List RowOutput) (screenX screenY : Nat)
deriving DecidableEq

/-- `Editor::refresh_screen` from editor.rs, as the frame it renders. -/
def refresh_screen (width height : Nat) (e : Editor) : Frame :=
  if e.want_quit then Frame.farewell
  else
    Frame.normal (draw_rows e.document e.offset width height)
      (e.cursor_position.x - e.offset.x)
      (e.cursor_position.y - e.offset.y)

/-- `Editor::run` from editor.rs, as the trace of frames rendered while
consuming a list of pending key events: each iteration renders a frame,
breaks if `want_quit`, otherwise reads the next key and processes it.
(When the key list is exhausted the real loop would block forever waiting
for input; the trace simply ends after the frame rendered before the
blocking read.) -/
def run (width height : Nat) : Editor → List Key → List Frame
  | e, [] => [refresh_screen width height e]
  | e, k :: rest =>
    if e.want_quit then [refresh_screen width height e]
    else refresh_screen width height e :: run width height (process_keypress width height e k) rest

/-- The empty document (no rows). -/
def emptyDoc : Document := ⟨[]⟩

/-- A 50-row document (row contents irrelevant to the C4 scenario). -/
def doc50 : Document := ⟨List.replicate 50 ""⟩

/-- A 5-row document with row lengths `[10, 3, 0, 20, 5]` (§8 scenario). -/
def doc5 : Document :=
  ⟨["aaaaaaaaaa", "bbb", "", "cccccccccccccccccccc", "ddddd"]⟩

/-- The C4 scenario state: starting from cursor `(0,0)`, offset `(0,0)` on
the 50-row document, press Down `n` times on an 80×24 terminal, each press
followed by the per-input-cycle scroll (`process_keypress`). -/
def c4state : Nat → Editor
  | 0 => ⟨false, ⟨0, 0⟩, ⟨0, 0⟩, doc50⟩
  | n + 1 => process_keypress 80 24 (c4state n) Key.down

/-- Helper: with a positive viewport, the offset produced by `scroll`
places the cursor inside the window on both axes. -/
theorem scroll_contains (c o : Position) (w h : Nat) (hw : 0 < w) (hh : 0 < h) :
    (scroll c o w h).y ≤ c.y ∧ c.y < (scroll c o w h).y + h ∧
      (scroll c o w h).x ≤ c.x ∧ c.x < (scroll c o w h).x + w := by
  obtain ⟨cx, cy⟩ := c
  obtain ⟨ox, oy⟩ := o
  simp only [scroll]
  split_ifs <;> simp_all <;> omega

/-- Helper: `scroll` leaves an offset alone when the cursor is already
inside the window it defines. -/
theorem scroll_fixed (c o : Position) (w h : Nat)
    (h1 : o.y ≤ c.y) (h2 : c.y < o.y + h) (h3 : o.x ≤ c.x) (h4 : c.x < o.x + w) :
    scroll c o w h = o := by
  obtain ⟨cx, cy⟩ := c
  obtain ⟨ox, oy⟩ := o
  simp only [scroll, Position.mk.injEq] at *
  split_ifs <;> omega

/-- C2: immediately after a `scroll` call (for a viewport of positive width
and height), the cursor's screen-relative coordinates lie inside the
viewport: `cursor.y - offset.y ∈ [0, height)` and
`cursor.x - offset.x ∈ [0, width)`, the new offset being componentwise at
most the cursor; this holds for every cursor and prior offset, hence after
any sequence of moves followed by a scroll. -/
theorem scroll_cursor_in_viewport (c o : Position) (w h : Nat)
    (hw : 0 < w) (hh : 0 < h) :
    (scroll c o w h).y ≤ c.y ∧ c.y - (scroll c o w h).y < h ∧
      (scroll c o w h).x ≤ c.x ∧ c.x - (scroll c o w h).x < w := by
  obtain ⟨p1, p2, p3, p4⟩ := scroll_contains c o w h hw hh
  exact ⟨p1, by omega, p3, by omega⟩

/-- C2 witness: concrete instance at cursor `(8, 30)`, offset `(0, 0)`,
viewport `80 × 24`. -/
theorem scroll_cursor_in_viewport_witness :
    (scroll ⟨8, 30⟩ ⟨0, 0⟩ 80 24).y ≤ 30 ∧ 30 - (scroll ⟨8, 30⟩ ⟨0, 0⟩ 80 24).y < 24 ∧
      (scroll ⟨8, 30⟩ ⟨0, 0⟩ 80 24).x ≤ 8 ∧ 8 - (scroll ⟨8, 30⟩ ⟨0, 0⟩ 80 24).x < 80 :=
  scroll_cursor_in_viewport ⟨8, 30⟩ ⟨0, 0⟩ 80 24 (by decide) (by decide)

/-- C3 counterexample: with a zero-height viewport, calling `scroll` twice
with the cursor unchanged does not equal calling it once (the first call
pushes the offset past the cursor, the second pulls it back). -/
theorem scroll_not_idempotent_height_zero :
    ¬ (scroll ⟨0, 0⟩ (scroll ⟨0, 0⟩ ⟨0, 0⟩ 1 0) 1 0 = scroll ⟨0, 0⟩ ⟨0, 0⟩ 1 0) := by
  decide

/-- C3 (amended): for every cursor position, offset, and viewport size of
positive width and height, calling `scroll` twice in succession with the
cursor unchanged yields the same offset as calling it once. -/
theorem scroll_idempotent (c o : Position) (w h : Nat) (hw : 0 < w) (hh : 0 < h) :
    scroll c (scroll c o w h) w h = scroll c o w h := by
  obtain ⟨p1, p2, p3, p4⟩ := scroll_contains c o w h hw hh
  exact scroll_fixed c (scroll c o w h) w h p1 p2 p3 p4

/-- C3 witness: concrete instance at cursor `(5, 100)`, offset `(2, 3)`,
viewport `80 × 24`. -/
theorem scroll_idempotent_witness :
    scroll ⟨5, 100⟩ (scroll ⟨5, 100⟩ ⟨2, 3⟩ 80 24) 80 24 = scroll ⟨5, 100⟩ ⟨2, 3⟩ 80 24 :=
  scroll_idempotent ⟨5, 100⟩ ⟨2, 3⟩ 80 24 (by decide) (by decide)

/-- C10: the result of `move_cursor` is independent of the terminal
dimensions: for any two terminal sizes, the same key, document and starting
position produce the same resulting cursor position (the `size` the source
reads inside `move_cursor` never influences the outcome). -/
theorem move_cursor_terminal_independent (s1 s2 : Nat × Nat) (doc : Document)
    (key : Key) (p : Position) :
    move_cursor s1 doc key p = move_cursor s2 doc key p := rfl

/-- C5 counterexample: on the 5-row document with row lengths
`[10, 3, 0, 20, 5]`, pressing Down with the cursor at `(8, 1)` does not
yield `(3, 2)`. -/
theorem move_cursor_scenario_not_3_2 :
    ¬ (move_cursor (80, 24) doc5 Key.down ⟨8, 1⟩ = ⟨3, 2⟩) := by decide

/-- C5 (amended): on the 5-row document with row lengths
`[10, 3, 0, 20, 5]`, pressing Down with the cursor at `(8, 1)` yields
`(0, 2)`: `x` is clamped from 8 to the new row's length, which is 0. -/
theorem move_cursor_scenario_down :
    move_cursor (80, 24) doc5 Key.down ⟨8, 1⟩ = ⟨0, 2⟩ := by decide

/-- C1: for every cursor position satisfying the §3 bounds
(`y ≤ document.len()` and `x ≤ row_length(y)`) and every navigation
command, the cursor returned by `move_cursor` again satisfies them:
`y ≤ document.len()` and `x ≤ row_length(y)` with `row_length` of a
past-the-end row being 0 (non-negativity is inherent to `Nat`). -/
theorem move_cursor_in_bounds (size : Nat × Nat) (doc : Document) (key : Key)
    (p : Position) (hy : p.y ≤ doc.len) (hx : p.x ≤ row_len doc p.y) :
    (move_cursor size doc key p).y ≤ doc.len ∧
      (move_cursor size doc key p).x ≤ row_len doc (move_cursor size doc key p).y := by
  obtain ⟨x, y⟩ := p
  cases key <;>
    (simp only [move_cursor]; split_ifs <;> simp_all <;> omega)

/-- C1 witness: concrete instance pressing Down at `(3, 1)` on the 5-row
document with row lengths `[10, 3, 0, 20, 5]`. -/
theorem move_cursor_in_bounds_witness :
    (move_cursor (80, 24) doc5 Key.down ⟨3, 1⟩).y ≤ doc5.len ∧
      (move_cursor (80, 24) doc5 Key.down ⟨3, 1⟩).x ≤
        row_len doc5 (move_cursor (80, 24) doc5 Key.down ⟨3, 1⟩).y :=
  move_cursor_in_bounds (80, 24) doc5 Key.down ⟨3, 1⟩ (by decide) (by decide)

/-- C6: when `move_cursor` receives a command handled by no arm of its
`match`, no movement is performed: the result is the current position with
only the mandatory post-move clamp of `x` to `row_length(y)` applied, so a
current position satisfying the §3 bound `x ≤ row_length(y)` is returned
unchanged. -/
theorem move_cursor_unrecognized (size : Nat × Nat) (doc : Document) (key : Key)
    (p : Position) (hk : moveCursorHandles key = false) :
    move_cursor size doc key p = ⟨min p.x (row_len doc p.y), p.y⟩ ∧
      (p.x ≤ row_len doc p.y → move_cursor size doc key p = p) := by
  obtain ⟨x, y⟩ := p
  cases key <;>
    simp_all [moveCursorHandles, move_cursor, Position.mk.injEq] <;>
    first
    | omega
    | (split_ifs <;> omega)

/-- C6 witness: `Ctrl('x')` at `(2, 1)` on the 5-row document (row 1 has
length 3, so the position is within bounds and is returned unchanged). -/
theorem move_cursor_unrecognized_witness :
    move_cursor (80, 24) doc5 (Key.ctrl 'x') ⟨2, 1⟩ =
        ⟨min 2 (row_len doc5 1), 1⟩ ∧
      ((2 : Nat) ≤ row_len doc5 1 → move_cursor (80, 24) doc5 (Key.ctrl 'x') ⟨2, 1⟩ = ⟨2, 1⟩) :=
  move_cursor_unrecognized (80, 24) doc5 (Key.ctrl 'x') ⟨2, 1⟩ (by decide)

/-- Helper: on the empty document any single key leaves the cursor at
`(0, 0)`. -/
theorem move_cursor_empty_aux (size : Nat × Nat) (key : Key) :
    move_cursor size emptyDoc key ⟨0, 0⟩ = ⟨0, 0⟩ := by
  cases key <;>
    simp [move_cursor, emptyDoc, row_len, Document.row, Document.len]

/-- C9: when the document is empty, every movement command — and hence
every sequence of movement commands — leaves the cursor fixed at `(0, 0)`
(in particular PageDown jumps to `y = document.len() = 0` and End sets `x`
to the absent row's length 0). -/
theorem move_cursor_empty_document (size : Nat × Nat) :
    (∀ key : Key, move_cursor size emptyDoc key ⟨0, 0⟩ = ⟨0, 0⟩) ∧
      ∀ keys : List Key,
        keys.foldl (fun p k => move_cursor size emptyDoc k p) ⟨0, 0⟩ = ⟨0, 0⟩ := by
  refine ⟨move_cursor_empty_aux size, ?_⟩
  intro keys
  induction keys with
  | nil => rfl
  | cons k ks ih => rw [List.foldl_cons, move_cursor_empty_aux size k]; exact ih

/-- C4: starting from cursor `(0, 0)` and offset `(0, 0)` on a 50-row
document with viewport height 24, pressing Down 30 times (each press
followed by the per-input-cycle scroll of `process_keypress`) leaves
`offset.y = 30 - 24 + 1 = 7`, and for every press count `n` from the 24th
through the 30th, `offset.y = n - 24 + 1`. -/
theorem down_thirty_offset_tracks :
    (c4state 30).offset.y = 30 - 24 + 1 ∧
      ((List.range 7).all fun i =>
        (c4state (24 + i)).offset.y == 24 + i - 24 + 1) = true := by
  decide

/-- Helper: `draw_rows` prints the welcome banner on body row `r` exactly
when the document is empty and `r = height / 3`. -/
theorem draw_rows_welcome_iff (doc : Document) (offset : Position)
    (width height r : Nat) (hr : r < height - 1) :
    (draw_rows doc offset width height).get? r = some RowOutput.welcome ↔
      doc.isEmpty = true ∧ r = height / 3 := by
  obtain ⟨rows⟩ := doc
  unfold draw_rows
  rw [List.get?_map, List.get?_range hr]
  cases rows with
  | nil =>
    simp only [Document.row, Document.isEmpty, List.get?_nil, List.isEmpty_nil,
      Option.map_some']
    split_ifs with hcond <;> simp_all
  | cons a l =>
    simp only [Document.isEmpty, List.isEmpty_cons, Option.map_some']
    cases hrow : Document.row ⟨a :: l⟩ (r + offset.y) <;> simp [hrow]

/-- C7: in a Normal-state frame the welcome banner is printed on body row
`r` (for `r` in the drawn range `[0, height-1)`) if and only if the
document is empty and `r = height / 3`; in particular, for an empty
document on an 80×24 terminal with no movement, it appears exactly on
screen row 8 and every other body row shows the blank-line placeholder. -/
theorem welcome_banner_row (doc : Document) (offset : Position)
    (width height r : Nat) (hr : r < height - 1) :
    ((draw_rows doc offset width height).get? r = some RowOutput.welcome ↔
        doc.isEmpty = true ∧ r = height / 3) ∧
      ((List.range 23).all fun i =>
        (draw_rows emptyDoc ⟨0, 0⟩ 80 24).get? i ==
          some (if i == 8 then RowOutput.welcome else RowOutput.blank)) = true :=
  ⟨draw_rows_welcome_iff doc offset width height r hr, by decide⟩

/-- C7 witness: body row 8 of an empty document's 80×24 frame shows the
welcome banner. -/
theorem welcome_banner_row_witness :
    (draw_rows emptyDoc ⟨0, 0⟩ 80 24).get? 8 = some RowOutput.welcome :=
  ((welcome_banner_row emptyDoc ⟨0, 0⟩ 80 24 8 (by decide)).1).mpr ⟨rfl, rfl⟩

/-- Helper: once `want_quit` is set, the remaining trace is a single
farewell frame, whatever input is still pending. -/
theorem run_quit (width height : Nat) (e : Editor) (keys : List Key)
    (hq : e.want_quit = true) :
    run width height e keys = [Frame.farewell] := by
  cases keys <;> simp [run, refresh_screen, hq]

/-- C8: from any Normal state (`want_quit = false`), receiving the exit
command `Ctrl('p')` transitions the editor to the Quitting state, and the
main loop renders the frame in progress followed by exactly one farewell
frame and terminates — the trace is the same list for every sequence of
further pending keys, so no further input is ever read. -/
theorem quit_renders_one_farewell_frame (width height : Nat) (e : Editor)
    (rest : List Key) (hq : e.want_quit = false) :
    (process_keypress width height e (Key.ctrl 'p')).want_quit = true ∧
      run width height e (Key.ctrl 'p' :: rest) =
        [refresh_screen width height e, Frame.farewell] := by
  have hq2 : (process_keypress width height e (Key.ctrl 'p')).want_quit = true := by
    simp [process_keypress]
  exact ⟨hq2, by simp [run, hq, run_quit width height _ rest hq2]⟩

/-- C8 witness: concrete instance from the initial empty-document editor
with pending input `[Ctrl('p'), Down]`. -/
theorem quit_renders_one_farewell_frame_witness :
    (process_keypress 80 24 ⟨false, ⟨0, 0⟩, ⟨0, 0⟩, emptyDoc⟩ (Key.ctrl 'p')).want_quit = true ∧
      run 80 24 ⟨false, ⟨0, 0⟩, ⟨0, 0⟩, emptyDoc⟩ [Key.ctrl 'p', Key.down] =
        [refresh_screen 80 24 ⟨false, ⟨0, 0⟩, ⟨0, 0⟩, emptyDoc⟩, Frame.farewell] :=
  quit_renders_one_farewell_frame 80 24 ⟨false, ⟨0, 0⟩, ⟨0, 0⟩, emptyDoc⟩ [Key.down] rfl
